import Mathlib

/-!
Verification development for the portfolio chatbot backend
(`google-apps-script.gs`, plus the older script variant in
`src/unnamed/part_001` and the analytics sink in `src/unnamed/part_000`).

The JavaScript source is shallowly embedded below.  External effects are
modelled as explicit inputs:
* the outbound HTTP fetch is an oracle `Nat → FetchResult` (per retry index)
  or `Nat → Nat → Nat → FetchResult` (per model index, key index, retry index);
* `JSON.parse` of an externally supplied string is part of the input
  (`Except String _`, where `.error m` models a parse exception with message
  `m`);
* the script cache (`CacheService`) is an explicit association list with
  per-entry expiry timestamps;
* the MD5 fingerprint digest is an abstract function `String → String`.

Sleeps (`Utilities.sleep`) are recorded in traces where a claim needs them
and ignored where they cannot influence the produced value.
-/

/-! ### String helpers mirroring JavaScript primitives -/

/-- `strIncludesL needle hay` decides whether `needle` occurs contiguously in
`hay` (the `List Char` core of JavaScript `String.prototype.includes`). -/
def strIncludesL (needle : List Char) : List Char → Bool
  | [] => needle.isEmpty
  | c :: rest => needle.isPrefixOf (c :: rest) || strIncludesL needle rest

/-- JavaScript `hay.includes(needle)`. -/
def strIncludes (hay needle : String) : Bool :=
  strIncludesL needle.data hay.data

/-- JavaScript `s.substring(0, n)`. -/
def strTrunc (s : String) (n : Nat) : String :=
  s.take n

/-- JavaScript `s.trim()`: strip leading and trailing whitespace
(structurally, on the character list). -/
def jsTrim (s : String) : String :=
  String.mk (((s.data.dropWhile Char.isWhitespace).reverse.dropWhile Char.isWhitespace).reverse)

/-- JavaScript `a || b` for an optionally-present string `a`: the empty string
and an absent value are both falsy. -/
def jsOrS (a : Option String) (b : String) : String :=
  match a with
  | some s => if s = "" then b else s
  | none => b

/-! ### Model of the Gemini response payload (the parsed JSON result)

`doPost` inspects `result.candidates && result.candidates[0] &&
result.candidates[0].content` and then reads
`result.candidates[0].content.parts[0].text`.  Absent JSON fields are
modelled as `none`; a JSON array is a `List`. -/

structure GemPart where
  text : Option String
deriving Repr, DecidableEq

structure GemContent where
  parts : Option (List GemPart)
deriving Repr, DecidableEq

structure GemCandidate where
  content : Option GemContent
deriving Repr, DecidableEq

structure GeminiResult where
  candidates : Option (List GemCandidate)
deriving Repr, DecidableEq

/-- Outcome of the answer-extraction block (`google-apps-script.gs` lines
244–261).  `thrown m` models a TypeError escaping to the outer catch with
message `m`; `noCandidate` is the explicit `else` branch producing the
"No response from Gemini API" failure. -/
inductive AnswerOutcome where
  | success (answer : String)
  | noCandidate
  | thrown (msg : String)
deriving Repr, DecidableEq

def typeErrorIdxMsg : String :=
  "TypeError: Cannot read properties of undefined (reading '0')"

def typeErrorTextMsg : String :=
  "TypeError: Cannot read properties of undefined (reading 'text')"

def typeErrorLenMsg : String :=
  "TypeError: Cannot read properties of undefined (reading 'length')"

/-- Lines 247–261 of `google-apps-script.gs`: truthiness test on
`candidates`, `candidates[0]`, `candidates[0].content`, then the unguarded
access chain `content.parts[0].text` followed by `answer.length`.
An empty JSON array is truthy in JavaScript, so `candidates = some []` fails
only at the `candidates[0]` test. -/
def answerFromResult (r : GeminiResult) : AnswerOutcome :=
  match r.candidates with
  | none => .noCandidate
  | some cs =>
    match cs.head? with
    | none => .noCandidate
    | some c0 =>
      match c0.content with
      | none => .noCandidate
      | some ct =>
        match ct.parts with
        | none => .thrown typeErrorIdxMsg
        | some ps =>
          match ps.head? with
          | none => .thrown typeErrorTextMsg
          | some p0 =>
            match p0.text with
            | none => .thrown typeErrorLenMsg
            | some t => .success t

/-! ### The bounded retry primitive `callGeminiWithRetry`

One fetch attempt yields either an HTTP response (`muteHttpExceptions: true`,
so the status code is inspected, never thrown) or a transport-level
exception carrying its `toString()` text. -/

/-- A successful (status 200) response: its `getContentText()` and the
outcome of `JSON.parse` on that text. -/
structure HttpOk where
  text : String
  parsed : Except String GeminiResult
deriving Repr

/-- Result of one `UrlFetchApp.fetch` attempt. -/
inductive FetchResult where
  | http (status : Nat) (text : String) (parsed : Except String GeminiResult)
  | exn (msg : String)
deriving Repr

/-- Errors thrown out of `callGeminiWithRetry`, each corresponding to one
`throw` site in the source. -/
inductive CallError where
  | rateLimit429
  | serviceUnavailable (maxRetries status : Nat)
  | apiError (status : Nat) (bodyTrunc : String)
  | timeoutAfter (maxRetries : Nat)
  | fetchExn (msg : String)
  | maxRetriesExceeded
deriving Repr, DecidableEq

/-- The `message` of the `Error` constructed at each throw site. -/
def errMessage : CallError → String
  | .rateLimit429 => "Rate limit (429) - moving to next API key"
  | .serviceUnavailable n s =>
      "Service unavailable after " ++ toString n ++ " retries. Status: " ++ toString s
  | .apiError s b => "API error: " ++ toString s ++ ". " ++ b
  | .timeoutAfter n => "Request timeout after " ++ toString n ++ " retries"
  | .fetchExn m => m
  | .maxRetriesExceeded => "Max retries exceeded"

/-- JavaScript `error.toString()`: `"Error: " ++ message` for errors built by
`new Error(...)`; a transport exception is carried verbatim. -/
def errToString : CallError → String
  | .fetchExn m => m
  | e => "Error: " ++ errMessage e

/-- The dispatcher's 429 test on a caught error (line 210):
`error.toString().includes('429')`. -/
def inc429 (e : CallError) : Bool :=
  strIncludes (errToString e) "429"

/-- Backoff of the main script (line 414/440): `min(1000 * 2^retry, 5000)`. -/
def backoffMain (retry : Nat) : Nat :=
  min (1000 * 2 ^ retry) 5000

/-- Backoff of the legacy variant (`part_001` line 271/292):
`min(2000 * 2^retry, 10000)`. -/
def backoffLegacy (retry : Nat) : Nat :=
  min (2000 * 2 ^ retry) 10000

/-- Trace of one `callGeminiWithRetry` call: the returned value or thrown
error, how many fetch attempts were performed, and the waits slept between
attempts, in order. -/
structure CallTrace where
  result : Except CallError HttpOk
  attempts : Nat
  sleeps : List Nat
deriving Repr

/-- What one loop iteration decides: exit the function with `r`, or sleep
`wait` ms and run the next iteration (`newErr` is the `lastError` update:
the catch block records the caught error, the in-try 503 path does not). -/
inductive StepOut where
  | done (r : Except CallError HttpOk)
  | again (wait : Nat) (newErr : Option CallError)

/-- The catch block of the main variant (lines 429–453): `fuel` is the
number of loop iterations remaining after the current one, so
`retry < maxRetries - 1` is `1 ≤ fuel`. -/
def catchFn (mr fuel retry : Nat) (e : CallError) : StepOut :=
  let msg := errToString e
  if strIncludes msg "429" || strIncludes msg "Rate limit" then .done (.error e)
  else if strIncludes msg "timeout" || strIncludes msg "Timeout" then
    if 1 ≤ fuel then .again (backoffMain retry) (some e)
    else .done (.error (.timeoutAfter mr))
  else .done (.error e)

/-- The try block of the main variant (lines 389–428), with thrown errors
routed through `catchFn`. -/
def stepFn (fetch : Nat → FetchResult) (mr fuel retry : Nat) : StepOut :=
  match fetch retry with
  | .http s t p =>
    if s = 200 then .done (.ok ⟨t, p⟩)
    else if s = 429 then catchFn mr fuel retry .rateLimit429
    else if s = 503 then
      if 1 ≤ fuel then .again (backoffMain retry) none
      else catchFn mr fuel retry (.serviceUnavailable mr 503)
    else catchFn mr fuel retry (.apiError s (strTrunc t 200))
  | .exn m => catchFn mr fuel retry (.fetchExn m)

/-- Account the current fetch attempt in a trace of the remaining run. -/
def bumpAttempt (r : CallTrace) : CallTrace :=
  ⟨r.result, r.attempts + 1, r.sleeps⟩

/-- Record a wait slept before the remaining run. -/
def withSleep (w : Nat) (r : CallTrace) : CallTrace :=
  ⟨r.result, r.attempts, w :: r.sleeps⟩

/-- The retry loop of the main variant, as recursion on the remaining
iteration count.  At `fuel = 0` the loop is over and the function throws
`lastError || new Error('Max retries exceeded')` (line 456). -/
def callGo (fetch : Nat → FetchResult) (mr : Nat) : Nat → Nat → Option CallError → CallTrace
  | 0, _, le => ⟨.error (le.getD .maxRetriesExceeded), 0, []⟩
  | fuel + 1, retry, le =>
    match stepFn fetch mr fuel retry with
    | .done r => ⟨r, 1, []⟩
    | .again w ne =>
      bumpAttempt (withSleep w (callGo fetch mr fuel (retry + 1) (ne.orElse fun _ => le)))

/-- `callGeminiWithRetry(apiUrl, requestPayload, maxRetries)` of
`google-apps-script.gs` (lines 385–457), abstracted over the fetch oracle. -/
def callGeminiWithRetry (fetch : Nat → FetchResult) (maxRetries : Nat) : CallTrace :=
  callGo fetch maxRetries maxRetries 0 none

/-- The catch block of the legacy variant (`part_001` lines 286–305): no 429
special case, and the timeout test also matches the Russian timeout text. -/
def catchFnL (mr fuel retry : Nat) (e : CallError) : StepOut :=
  let msg := errToString e
  if strIncludes msg "timeout" || strIncludes msg "Время ожидания" || strIncludes msg "Timeout" then
    if 1 ≤ fuel then .again (backoffLegacy retry) (some e)
    else .done (.error (.timeoutAfter mr))
  else .done (.error e)

/-- The try block of the legacy variant (`part_001` lines 246–285): status
429 is grouped with 503 and retried with backoff. -/
def stepFnL (fetch : Nat → FetchResult) (mr fuel retry : Nat) : StepOut :=
  match fetch retry with
  | .http s t p =>
    if s = 200 then .done (.ok ⟨t, p⟩)
    else if s = 503 || s = 429 then
      if 1 ≤ fuel then .again (backoffLegacy retry) none
      else catchFnL mr fuel retry (.serviceUnavailable mr s)
    else catchFnL mr fuel retry (.apiError s (strTrunc t 200))
  | .exn m => catchFnL mr fuel retry (.fetchExn m)

def callGoL (fetch : Nat → FetchResult) (mr : Nat) : Nat → Nat → Option CallError → CallTrace
  | 0, _, le => ⟨.error (le.getD .maxRetriesExceeded), 0, []⟩
  | fuel + 1, retry, le =>
    match stepFnL fetch mr fuel retry with
    | .done r => ⟨r, 1, []⟩
    | .again w ne =>
      bumpAttempt (withSleep w (callGoL fetch mr fuel (retry + 1) (ne.orElse fun _ => le)))

/-- `callGeminiWithRetry` of the legacy script variant
(`src/unnamed/part_001` lines 242–309). -/
def callGeminiWithRetryLegacy (fetch : Nat → FetchResult) (maxRetries : Nat) : CallTrace :=
  callGoL fetch maxRetries maxRetries 0 none

/-! ### The resilient dispatcher (`doPost` lines 150–238)

The outer loop walks `models = [PRIMARY_MODEL, FALLBACK_MODEL]` (two
entries), the inner loop the available API keys, both guarded by
`!success`, calling `callGeminiWithRetry(apiUrl, requestPayload, 1)`.
`apiUrl` is a function of the (model, key) pair and the payload is fixed for
the whole request, so the fetch oracle is indexed by
(model index, key index, retry index).  The guarded `for` loops with a
`success` flag are folds over all index pairs in which `tryKey` is the
loop body and skips once `success` holds; the sleeps between keys and
models (lines 221, 228) do not influence any produced value and are not
tracked here. -/

structure DState where
  response : Option HttpOk
  lastError : Option CallError
  success : Bool
  hit429 : Bool
  attempts : List (Nat × Nat)

/-- One inner-loop iteration (lines 162–224): on success record the
response and stop; on an error whose text contains `'429'` set `hit429` and
move on without touching `lastError` (line 210–215); otherwise record
`lastError`. -/
def tryKey (oracle : Nat → Nat → Nat → FetchResult) (mi ki : Nat) (st : DState) : DState :=
  if st.success then st
  else
    match (callGeminiWithRetry (oracle mi ki) 1).result with
    | .ok r =>
      { st with response := some r, success := true, attempts := st.attempts ++ [(mi, ki)] }
    | .error e =>
      if inc429 e then
        { st with hit429 := true, attempts := st.attempts ++ [(mi, ki)] }
      else
        { st with lastError := some e, attempts := st.attempts ++ [(mi, ki)] }

def runCombos (oracle : Nat → Nat → Nat → FetchResult) (L : List (Nat × Nat)) (st : DState) : DState :=
  L.foldl (fun s c => tryKey oracle c.1 c.2 s) st

/-- Index pairs visited by the nested loops: two models, `nkeys` keys. -/
def combosList (nkeys : Nat) : List (Nat × Nat) :=
  (List.range 2).flatMap fun mi => (List.range nkeys).map fun ki => (mi, ki)

def initDState : DState :=
  ⟨none, none, false, false, []⟩

def dispatchLoop (oracle : Nat → Nat → Nat → FetchResult) (nkeys : Nat) : DState :=
  runCombos oracle (combosList nkeys) initDState

/-- The dispatcher-level failure (lines 232–238): with `hit429` set the
script throws `new Error('RATE_LIMIT_EXCEEDED')`, otherwise the
all-failed error wrapping `lastError`. -/
inductive DispatchErr where
  | rateLimitExceeded
  | allAttemptsFailed (last : Option CallError)
deriving Repr, DecidableEq

def dispatchFailure (st : DState) : DispatchErr :=
  if st.hit429 then .rateLimitExceeded else .allAttemptsFailed st.lastError

/-- `if (!response || !success) throw ...` (line 232). -/
def finalDispatchResult (st : DState) : Except DispatchErr HttpOk :=
  match st.response with
  | some r => if st.success then .ok r else .error (dispatchFailure st)
  | none => .error (dispatchFailure st)

/-- `toString()` of the error thrown at lines 235/237. -/
def dispatchErrMsg : DispatchErr → String
  | .rateLimitExceeded => "Error: RATE_LIMIT_EXCEEDED"
  | .allAttemptsFailed le =>
      "Error: All models and API keys failed. Last error: " ++
        (match le with | some e => errToString e | none => "Unknown")

/-! ### Localized user-facing texts and the outer catch classifier
(lines 263–298) -/

def rateLimitText (lang : String) : String :=
  if lang = "en" then
    "⚠️ API rate limit exceeded. Arsen has used up his free API quota. Please try again in a few hours."
  else
    "⚠️ Превышен лимит API. Арсен израсходовал квоту бесплатного API. Пожалуйста, попробуйте через несколько часов."

def busyText (lang : String) : String :=
  if lang = "en" then
    "The AI service is currently busy. Please try again in a moment."
  else
    "Сервис ИИ сейчас перегружен. Пожалуйста, попробуйте через минуту."

def tooLongText (lang : String) : String :=
  if lang = "en" then
    "The request took too long. Please try again."
  else
    "Запрос занял слишком много времени. Пожалуйста, попробуйте еще раз."

def configErrText (lang : String) : String :=
  if lang = "en" then
    "API configuration error. Please contact the administrator."
  else
    "Ошибка конфигурации API. Пожалуйста, свяжитесь с администратором."

def genericText (lang : String) : String :=
  if lang = "en" then
    "Sorry, I encountered an error. Please try again later."
  else
    "Извините, произошла ошибка. Пожалуйста, попробуйте позже."

/-- The outer catch's message classification (lines 272–292). -/
def classifyUserMessage (lang msg : String) : String :=
  if strIncludes msg "RATE_LIMIT_EXCEEDED" || strIncludes msg "429" then rateLimitText lang
  else if strIncludes msg "503" || strIncludes msg "overloaded" || strIncludes msg "UNAVAILABLE" then
    busyText lang
  else if strIncludes msg "timeout" || strIncludes msg "Время ожидания" || strIncludes msg "Timeout" then
    tooLongText lang
  else if strIncludes msg "API key" then configErrText lang
  else genericText lang

/-! ### The inbound request event and the parsing stage (lines 36–108) -/

structure HistMsg where
  role : String
  content : String
deriving Repr, DecidableEq

/-- `e.parameter` of a form-encoded request.  The `history` field carries
the outcome of `JSON.parse` on the raw parameter string when present
(`.error m` = the parse threw with message `m`). -/
structure Param where
  question : Option String
  language : Option String
  history : Option (Except String (List HistMsg))
  userIP : Option String
  userId : Option String
  deviceId : Option String
  userAgent : Option String
  referrer : Option String

/-- The logical fields of a JSON request body. -/
structure JsonBody where
  question : Option String
  language : Option String
  history : Option (List HistMsg)

/-- The Apps Script event.  `postData` merges `e.postData &&
e.postData.contents` with the outcome of `JSON.parse` on the contents
(`none` = no usable post body, `.error m` = contents present but malformed
JSON with parse message `m`). -/
structure PostEvent where
  parameter : Option Param
  postData : Option (Except String JsonBody)

/-- The truthiness test `e.parameter && e.parameter.question` (line 62). -/
def formQuestion (e : PostEvent) : Option String :=
  match e.parameter with
  | some p =>
    match p.question with
    | some q => if q = "" then none else some q
    | none => none
  | none => none

inductive RequestErr where
  | noData
  | invalidJson (m : String)
  | emptyQuestion
deriving Repr, DecidableEq

structure ChatRequest where
  question : String
  language : String
  history : List HistMsg
deriving Repr, DecidableEq

/-- The parsing stage of `doPost` (lines 57–108): form data first, then the
JSON body, then the no-data failure; a malformed `history` parameter is
dropped; finally `!userQuestion || userQuestion.trim() === ''` rejects an
absent or blank question. -/
def parseRequest (e : PostEvent) : Except RequestErr ChatRequest :=
  match formQuestion e with
  | some q =>
    let lang := jsOrS (e.parameter.bind fun p => p.language) "en"
    let hist :=
      match e.parameter.bind fun p => p.history with
      | some (.ok h) => h
      | _ => []
    if jsTrim q = "" then .error .emptyQuestion else .ok ⟨q, lang, hist⟩
  | none =>
    match e.postData with
    | some (.ok body) =>
      let lang := jsOrS body.language "en"
      let hist := body.history.getD []
      match body.question with
      | none => .error .emptyQuestion
      | some q =>
        if q = "" then .error .emptyQuestion
        else if jsTrim q = "" then .error .emptyQuestion
        else .ok ⟨q, lang, hist⟩
    | some (.error m) => .error (.invalidJson m)
    | none => .error .noData

/-! ### The rate limiter `checkRateLimit` (lines 302–382)

`CacheService` is an association list with shadowing: `put` prepends a
fresh entry whose expiry is `now + ttl`; `get` reads the newest entry for
the key and hides it once expired.  The MD5 fingerprint digest is an
abstract function.  The `try/catch` fail-open wrapper is dead code in this
total model (no modelled operation throws). -/

structure CacheVal where
  count : Nat
  timestamp : Nat
deriving Repr, DecidableEq

structure CacheEntry where
  key : String
  count : Nat
  timestamp : Nat
  expiresAt : Nat
deriving Repr, DecidableEq

abbrev CacheState := List CacheEntry

def getCache (st : CacheState) (now : Nat) (k : String) : Option CacheVal :=
  match st.find? (fun en => en.key == k) with
  | some en => if now < en.expiresAt then some ⟨en.count, en.timestamp⟩ else none
  | none => none

def putCache (st : CacheState) (now : Nat) (k : String) (v : CacheVal) (ttl : Nat) : CacheState :=
  ⟨k, v.count, v.timestamp, now + ttl⟩ :: st

/-- The configuration constants of lines 26–32. -/
structure RLConfig where
  whitelist : List String
  allowLocalhost : Bool
  maxPerHour : Nat
  maxPerDay : Nat

def defaultRLConfig : RLConfig :=
  ⟨["172.16.255.61"], true, 20, 100⟩

structure RLResult where
  allowed : Bool
  message : Option String
deriving Repr, DecidableEq

def effUserIP (e : PostEvent) : String :=
  jsOrS (e.parameter.bind fun p => p.userIP) ""

def effReferrer (e : PostEvent) : String :=
  jsOrS (e.parameter.bind fun p => p.referrer) ""

/-- `e.parameter?.userId || e.parameter?.deviceId || 'anonymous'` (line 319). -/
def effUserId (e : PostEvent) : String :=
  jsOrS (e.parameter.bind fun p => p.userId)
    (jsOrS (e.parameter.bind fun p => p.deviceId) "anonymous")

def effUserAgent (e : PostEvent) : String :=
  jsOrS (e.parameter.bind fun p => p.userAgent) ""

def effLanguage (e : PostEvent) : String :=
  jsOrS (e.parameter.bind fun p => p.language) "en"

/-- `md5hex(userId + userAgent)` (lines 323–326), digest abstract. -/
def fingerprintOf (digest : String → String) (e : PostEvent) : String :=
  digest (effUserId e ++ effUserAgent e)

def hourKeyOf (fp : String) : String := "rate_hour_" ++ fp

def dayKeyOf (fp : String) : String := "rate_day_" ++ fp

def countOf (st : CacheState) (now : Nat) (k : String) : Nat :=
  match getCache st now k with
  | some v => v.count
  | none => 0

def hourLimitMsg (lang : String) (n : Nat) : String :=
  if lang = "en" then
    "Rate limit exceeded. Maximum " ++ toString n ++ " requests per hour. Please try again later."
  else
    "Превышен лимит запросов. Максимум " ++ toString n ++ " запросов в час. Попробуйте позже."

def dayLimitMsg (lang : String) (n : Nat) : String :=
  if lang = "en" then
    "Daily limit reached. Maximum " ++ toString n ++ " requests per day. Please try again tomorrow."
  else
    "Достигнут дневной лимит. Максимум " ++ toString n ++ " запросов в день. Попробуйте завтра."

/-- `checkRateLimit(e)` (lines 302–382). -/
def checkRateLimit (cfg : RLConfig) (digest : String → String) (e : PostEvent)
    (cache : CacheState) (now : Nat) : RLResult × CacheState :=
  if cfg.whitelist.contains (effUserIP e) then (⟨true, none⟩, cache)
  else if cfg.allowLocalhost &&
      (strIncludes (effReferrer e) "localhost" || strIncludes (effReferrer e) "127.0.0.1") then
    (⟨true, none⟩, cache)
  else
    let fp := fingerprintOf digest e
    let hc := countOf cache now (hourKeyOf fp)
    let dc := countOf cache now (dayKeyOf fp)
    if cfg.maxPerHour ≤ hc then
      (⟨false, some (hourLimitMsg (effLanguage e) cfg.maxPerHour)⟩, cache)
    else if cfg.maxPerDay ≤ dc then
      (⟨false, some (dayLimitMsg (effLanguage e) cfg.maxPerDay)⟩, cache)
    else
      (⟨true, none⟩,
        putCache (putCache cache now (hourKeyOf fp) ⟨hc + 1, now⟩ 3600)
          now (dayKeyOf fp) ⟨dc + 1, now⟩ 86400)

/-! ### The full `doPost` pipeline -/

structure ApiResponse where
  success : Bool
  answer : Option String
  error : Option String
deriving Repr, DecidableEq

def noDataMsg (e : PostEvent) : String :=
  "No data received. postData: " ++ (if e.postData.isSome then "exists" else "null") ++
    ", parameter: " ++ (if e.parameter.isSome then "exists" else "null")

def keysNotConfiguredMsg (lang : String) : String :=
  if lang = "en" then
    "API keys not configured. Please set API keys in Script Properties."
  else
    "API ключи не настроены. Пожалуйста, настройте ключи API."

/-- A minimal model of `JSON.stringify` on the fields the embedding keeps
(used only inside the no-candidate failure message). -/
def stringifyPart (p : GemPart) : String :=
  match p.text with
  | some t => "\x7b\x22text\x22:\x22" ++ t ++ "\x22\x7d"
  | none => "\x7b\x7d"

def stringifyList (f : α → String) (l : List α) : String :=
  "[" ++ String.intercalate "," (l.map f) ++ "]"

def stringifyContent (c : GemContent) : String :=
  match c.parts with
  | some ps => "\x7b\x22parts\x22:" ++ stringifyList stringifyPart ps ++ "\x7d"
  | none => "\x7b\x7d"

def stringifyCandidate (c : GemCandidate) : String :=
  match c.content with
  | some ct => "\x7b\x22content\x22:" ++ stringifyContent ct ++ "\x7d"
  | none => "\x7b\x7d"

def stringifyGemini (r : GeminiResult) : String :=
  match r.candidates with
  | some cs => "\x7b\x22candidates\x22:" ++ stringifyList stringifyCandidate cs ++ "\x7d"
  | none => "\x7b\x7d"

/-- External collaborators of one `doPost` call: the API keys found in
Script Properties, the fetch oracle and the digest. -/
structure Env where
  keys : List String
  oracle : Nat → Nat → Nat → FetchResult
  digest : String → String

/-- `doPost(e)` (lines 36–299): rate limit, parse, key lookup, dispatch,
answer extraction, with every thrown error routed through the outer catch's
`classifyUserMessage`.  Prompt construction (lines 133–147) only feeds the
request payload, which the fetch oracle absorbs. -/
def doPost (cfg : RLConfig) (enableRL : Bool) (env : Env) (e : PostEvent)
    (cache : CacheState) (now : Nat) : ApiResponse × CacheState :=
  let rl := if enableRL then checkRateLimit cfg env.digest e cache now else (⟨true, none⟩, cache)
  if rl.1.allowed = false then (⟨false, none, rl.1.message⟩, rl.2)
  else
    let cache1 := rl.2
    match parseRequest e with
    | .error .noData => (⟨false, none, some (noDataMsg e)⟩, cache1)
    | .error (.invalidJson m) => (⟨false, none, some ("Invalid JSON: " ++ m)⟩, cache1)
    | .error .emptyQuestion =>
      (⟨false, none, some "Question is required and cannot be empty"⟩, cache1)
    | .ok req =>
      if env.keys.length = 0 then (⟨false, none, some (keysNotConfiguredMsg req.language)⟩, cache1)
      else
        match finalDispatchResult (dispatchLoop env.oracle env.keys.length) with
        | .error de =>
          (⟨false, none, some (classifyUserMessage req.language (dispatchErrMsg de))⟩, cache1)
        | .ok r =>
          match r.parsed with
          | .error m => (⟨false, none, some (classifyUserMessage req.language m)⟩, cache1)
          | .ok g =>
            match answerFromResult g with
            | .success a => (⟨true, some a, none⟩, cache1)
            | .noCandidate =>
              (⟨false, none,
                some ("No response from Gemini API. Response: " ++ strTrunc (stringifyGemini g) 200)⟩,
                cache1)
            | .thrown m => (⟨false, none, some (classifyUserMessage req.language m)⟩, cache1)

/-! ### Concrete inputs used by witnesses and counterexamples -/

/-- A fetch whose every attempt is an HTTP 429. -/
def fetch429 : Nat → FetchResult := fun _ => .http 429 "quota" (.error "x")

/-- A fetch whose every attempt raises a transport timeout exception. -/
def fetchTimeoutC : Nat → FetchResult := fun _ => .exn "Exception: Timeout"

/-- A fully structured successful payload. -/
def g0 : GeminiResult := ⟨some [⟨some ⟨some [⟨some "Hello"⟩]⟩⟩]⟩

/-- A 200 payload whose first candidate has content but an empty `parts`
array. -/
def gBadParts : GeminiResult := ⟨some [⟨some ⟨some []⟩⟩]⟩

/-- Dispatcher oracle for the first-success scenario: model 0 + key 0
answers 429, model 0 + key 1 answers 200. -/
def oracleC1 : Nat → Nat → Nat → FetchResult := fun mi ki _ =>
  if mi = 0 && ki = 0 then .http 429 "quota" (.error "x")
  else if mi = 0 && ki = 1 then .http 200 "ok" (.ok g0)
  else .exn "unused"

/-- Dispatcher oracle whose every attempt fails with HTTP 500 and a body
that merely mentions "429". -/
def oracleBody429 : Nat → Nat → Nat → FetchResult := fun _ _ _ =>
  .http 500 "quota 429 mentioned" (.error "x")

/-- Dispatcher oracle whose every attempt fails with HTTP 429. -/
def oracleAll429 : Nat → Nat → Nat → FetchResult := fun _ _ _ =>
  .http 429 "quota" (.error "x")

/-- `lastError` after a run of failing combinations starting from `acc`:
a combination whose error text contains `'429'` is skipped (line 214 runs
`continue` before `lastError = error`), any other failure overwrites it. -/
def lastNon429 (E : Nat × Nat → CallError) (acc : Option CallError) :
    List (Nat × Nat) → Option CallError
  | [] => acc
  | c :: rest =>
    if inc429 (E c) then lastNon429 E acc rest
    else lastNon429 E (some (E c)) rest

/-- A sequence of `checkRateLimit` operations threaded through the cache
(each with its request event and arrival time). -/
def runRL (cfg : RLConfig) (digest : String → String) :
    List (PostEvent × Nat) → CacheState → CacheState
  | [], st => st
  | (e, now) :: rest, st => runRL cfg digest rest (checkRateLimit cfg digest e st now).2

/-- The counter bound: every stored hourly-window entry is at most the
hourly maximum and every daily-window entry at most the daily maximum. -/
def cacheCounterInv (cfg : RLConfig) (st : CacheState) : Prop :=
  ∀ en ∈ st, ((∃ fp, en.key = hourKeyOf fp) → en.count ≤ cfg.maxPerHour) ∧
    ((∃ fp, en.key = dayKeyOf fp) → en.count ≤ cfg.maxPerDay)

/-- A concrete digest function for witnesses. -/
def digestC : String → String := fun s => s

/-- A request supplying no parameters at all (a plain JSON-body request). -/
def eAnon : PostEvent := ⟨none, none⟩

/-- A form request supplying a question and a referrer but none of the
identity parameters. -/
def eJsonC10 : PostEvent :=
  ⟨some ⟨some "Hi", none, none, none, none, none, none, some "https://example.org/page"⟩, none⟩

/-- A request from the whitelisted IP. -/
def eWL : PostEvent :=
  ⟨some ⟨none, none, none, some "172.16.255.61", none, none, none, none⟩, none⟩

/-- A request whose referrer names localhost. -/
def eLocal : PostEvent :=
  ⟨some ⟨none, none, none, none, none, none, none, some "http://localhost:3000/dev"⟩, none⟩

/-- A cache in which the anonymous caller's hourly counter already sits at
the configured hourly maximum (20), far from expiry. -/
def cacheMax : CacheState :=
  [⟨hourKeyOf (digestC "anonymous"), 20, 0, 999999999⟩]

/-- A JSON-body request whose question is whitespace only. -/
def eEmptyQ : PostEvent := ⟨none, some (.ok ⟨some "   ", none, none⟩)⟩

/-- A form-style request with no question field and no post body. -/
def eNoData : PostEvent :=
  ⟨some ⟨none, some "en", none, none, none, none, none, none⟩, none⟩

/-- A concrete environment for `doPost` witnesses. -/
def env0 : Env := ⟨["k1"], fun _ _ _ => .exn "unused", digestC⟩

/-! ### Helper lemmas about the retry primitive -/

theorem inc429_rl : strIncludes (errToString .rateLimit429) "429" = true := by
  decide

theorem step_429 (fetch : Nat → FetchResult) (mr fuel retry : Nat) (t : String)
    (p : Except String GeminiResult) (h : fetch retry = .http 429 t p) :
    stepFn fetch mr fuel retry = .done (.error .rateLimit429) := by
  unfold stepFn
  rw [h]
  simp [catchFn, inc429_rl]

theorem step_200 (fetch : Nat → FetchResult) (mr fuel retry : Nat) (t : String)
    (p : Except String GeminiResult) (h : fetch retry = .http 200 t p) :
    stepFn fetch mr fuel retry = .done (.ok ⟨t, p⟩) := by
  unfold stepFn
  rw [h]
  simp

theorem call429_one (fetch : Nat → FetchResult) (t : String) (p : Except String GeminiResult)
    (h : fetch 0 = .http 429 t p) :
    callGeminiWithRetry fetch 1 = ⟨.error .rateLimit429, 1, []⟩ := by
  unfold callGeminiWithRetry callGo
  rw [step_429 fetch 1 0 0 t p h]

theorem call200_one (fetch : Nat → FetchResult) (t : String) (p : Except String GeminiResult)
    (h : fetch 0 = .http 200 t p) :
    callGeminiWithRetry fetch 1 = ⟨.ok ⟨t, p⟩, 1, []⟩ := by
  unfold callGeminiWithRetry callGo
  rw [step_200 fetch 1 0 0 t p h]

theorem callGo_attempts_le (fetch : Nat → FetchResult) (mr : Nat) :
    ∀ fuel retry le, (callGo fetch mr fuel retry le).attempts ≤ fuel := by
  intro fuel
  induction fuel with
  | zero => intro retry le; simp [callGo]
  | succ n ih =>
    intro retry le
    unfold callGo
    cases hs : stepFn fetch mr n retry with
    | done r => simp
    | again w ne =>
      simp only [bumpAttempt, withSleep]
      exact Nat.succ_le_succ (ih (retry + 1) (ne.orElse fun _ => le))

theorem callGo_429 (fetch : Nat → FetchResult) (mr : Nat) (t : String)
    (p : Except String GeminiResult) :
    ∀ fuel retry le i, i < (callGo fetch mr fuel retry le).attempts →
      fetch (retry + i) = .http 429 t p →
      (callGo fetch mr fuel retry le).attempts = i + 1 ∧
        (callGo fetch mr fuel retry le).result = .error .rateLimit429 := by
  intro fuel
  induction fuel with
  | zero =>
    intro retry le i hi _
    simp [callGo] at hi
  | succ n ih =>
    intro retry le i hi hf
    revert hi
    unfold callGo
    cases hs : stepFn fetch mr n retry with
    | done r =>
      intro hi
      simp only [CallTrace.mk.injEq] at hi ⊢
      have hi0 : i = 0 := Nat.lt_one_iff.mp hi
      subst hi0
      rw [Nat.add_zero] at hf
      rw [step_429 fetch mr n retry t p hf] at hs
      cases hs
      exact ⟨rfl, rfl⟩
    | again w ne =>
      intro hi
      simp only [bumpAttempt, withSleep] at hi ⊢
      cases i with
      | zero =>
        rw [Nat.add_zero] at hf
        rw [step_429 fetch mr n retry t p hf] at hs
        cases hs
      | succ j =>
        have hf' : fetch (retry + 1 + j) = .http 429 t p := by
          have : retry + 1 + j = retry + (j + 1) := by omega
          rw [this]
          exact hf
        have hj : j < (callGo fetch mr n (retry + 1) (ne.orElse fun _ => le)).attempts :=
          Nat.lt_of_succ_lt_succ hi
        have := ih (retry + 1) (ne.orElse fun _ => le) j hj hf'
        exact ⟨by omega, this.2⟩

/-- C2 as it holds of the main script's primitive: if the `i`-th performed
attempt answered HTTP 429, the call stops right there with the distinguished
quota error. -/
theorem callRetry_429_immediate (fetch : Nat → FetchResult) (mr i : Nat) (t : String)
    (p : Except String GeminiResult)
    (hi : i < (callGeminiWithRetry fetch mr).attempts)
    (hf : fetch i = .http 429 t p) :
    (callGeminiWithRetry fetch mr).attempts = i + 1 ∧
      (callGeminiWithRetry fetch mr).result = .error .rateLimit429 := by
  have hf' : fetch (0 + i) = .http 429 t p := by rw [Nat.zero_add]; exact hf
  exact callGo_429 fetch mr t p mr 0 none i hi hf'

/-! ### C1: first success stops all credential and model iteration -/

/-- C1: with models `[A, B]` and two credentials, if the `A`+`k1` attempt
answers HTTP 429 and the `A`+`k2` attempt answers HTTP 200, the dispatcher
returns the `A`+`k2` payload, the attempt trace is exactly
`[(A,k1), (A,k2)]`, and no attempt with model `B` (index 1) is ever made. -/
theorem dispatch_first_success_stops (oracle : Nat → Nat → Nat → FetchResult)
    (t1 t2 : String) (p1 p2 : Except String GeminiResult)
    (h1 : oracle 0 0 0 = .http 429 t1 p1) (h2 : oracle 0 1 0 = .http 200 t2 p2) :
    finalDispatchResult (dispatchLoop oracle 2) = .ok ⟨t2, p2⟩ ∧
      (dispatchLoop oracle 2).attempts = [(0, 0), (0, 1)] ∧
      ∀ k, (1, k) ∉ (dispatchLoop oracle 2).attempts := by
  have hc : combosList 2 = [(0, 0), (0, 1), (1, 0), (1, 1)] := by decide
  have hloop : dispatchLoop oracle 2 =
      ⟨some ⟨t2, p2⟩, none, true, true, [(0, 0), (0, 1)]⟩ := by
    unfold dispatchLoop runCombos
    rw [hc]
    simp only [List.foldl]
    rw [show tryKey oracle 0 0 initDState =
        { initDState with hit429 := true, attempts := [(0, 0)] } by
      unfold tryKey initDState
      rw [call429_one (oracle 0 0) t1 p1 h1]
      simp [inc429, inc429_rl]]
    rw [show tryKey oracle 0 1 { initDState with hit429 := true, attempts := [(0, 0)] } =
        ⟨some ⟨t2, p2⟩, none, true, true, [(0, 0), (0, 1)]⟩ by
      unfold tryKey initDState
      rw [call200_one (oracle 0 1) t2 p2 h2]
      simp]
    rfl
  rw [hloop]
  refine ⟨rfl, rfl, ?_⟩
  intro k hk
  simp at hk

/-- C1 witness: the scenario at a concrete oracle. -/
theorem dispatch_first_success_stops_witness :
    finalDispatchResult (dispatchLoop oracleC1 2) = .ok ⟨"ok", .ok g0⟩ ∧
      (dispatchLoop oracleC1 2).attempts = [(0, 0), (0, 1)] ∧
      ∀ k, (1, k) ∉ (dispatchLoop oracleC1 2).attempts :=
  dispatch_first_success_stops oracleC1 "quota" "ok" (.error "x") (.ok g0) rfl rfl

/-! ### C2 (amended to the main script's primitive) -/

/-- C2 witness: every attempt 429 with `maxRetries = 3` still stops after
one attempt with the quota error. -/
theorem callRetry_429_immediate_witness :
    (callGeminiWithRetry fetch429 3).attempts = 0 + 1 ∧
      (callGeminiWithRetry fetch429 3).result = .error .rateLimit429 :=
  callRetry_429_immediate fetch429 3 0 "quota" (.error "x") (by decide) rfl

/-- C2 counterexample on the legacy variant (`src/unnamed/part_001`): a 429
attempt IS retried there — with `maxRetries = 2` and every attempt
answering 429, two attempts are performed and the final error is the
undistinguished "Service unavailable … Status: 429", so the claim is false
of that `callGeminiWithRetry`. -/
theorem callRetryLegacy_429_retried :
    (callGeminiWithRetryLegacy fetch429 2).attempts = 2 ∧
      (callGeminiWithRetryLegacy fetch429 2).result = .error (.serviceUnavailable 2 429) ∧
      (callGeminiWithRetryLegacy fetch429 2).sleeps = [2000] := by
  refine ⟨rfl, rfl, rfl⟩

/-! ### C4: 503/timeout retry with capped exponential backoff, bounded by
`maxRetries` -/

/-- C4: (1) the main primitive never performs more than `maxRetries`
attempts; (2) with `maxRetries = 2` and persistent 503, exactly 2 attempts
occur, one backoff of `min(1000·2^0, 5000) = 1000` ms is slept, and the
call fails with ServiceUnavailable; (3) with `maxRetries = 5` the slept
backoffs are `[1000, 2000, 4000, 5000]` — doubling then clipped at the
5000 ms cap; (4) a persistent transport timeout behaves the same way,
failing with the timeout error after exactly `maxRetries` attempts;
(5) the legacy variant shows the same budget with its `min(2000·2^r, 10000)`
backoff. -/
theorem callRetry_budget :
    (∀ (fetch : Nat → FetchResult) (mr : Nat), (callGeminiWithRetry fetch mr).attempts ≤ mr) ∧
      (∀ (t : String) (p : Except String GeminiResult),
        callGeminiWithRetry (fun _ => .http 503 t p) 2 =
          ⟨.error (.serviceUnavailable 2 503), 2, [1000]⟩) ∧
      (∀ (t : String) (p : Except String GeminiResult),
        callGeminiWithRetry (fun _ => .http 503 t p) 5 =
          ⟨.error (.serviceUnavailable 5 503), 5, [1000, 2000, 4000, 5000]⟩) ∧
      callGeminiWithRetry fetchTimeoutC 2 = ⟨.error (.timeoutAfter 2), 2, [1000]⟩ ∧
      (∀ (t : String) (p : Except String GeminiResult),
        callGeminiWithRetryLegacy (fun _ => .http 503 t p) 2 =
          ⟨.error (.serviceUnavailable 2 503), 2, [2000]⟩) := by
  refine ⟨fun fetch mr => callGo_attempts_le fetch mr mr 0 none, fun t p => rfl, fun t p => rfl,
    rfl, fun t p => rfl⟩

/-! ### Fold lemmas for the dispatcher's all-fail behaviour -/

theorem combos_bounds (nkeys : Nat) (c : Nat × Nat) (h : c ∈ combosList nkeys) :
    c.1 < 2 ∧ c.2 < nkeys := by
  unfold combosList at h
  rw [List.mem_flatMap] at h
  obtain ⟨mi, hmi, hmap⟩ := h
  rw [List.mem_map] at hmap
  obtain ⟨ki, hki, rfl⟩ := hmap
  exact ⟨List.mem_range.mp hmi, List.mem_range.mp hki⟩

theorem mem_combos (nkeys mi ki : Nat) (hmi : mi < 2) (hki : ki < nkeys) :
    (mi, ki) ∈ combosList nkeys := by
  unfold combosList
  exact List.mem_flatMap.mpr
    ⟨mi, List.mem_range.mpr hmi, List.mem_map.mpr ⟨ki, List.mem_range.mpr hki, rfl⟩⟩

theorem combos_getLast (k : Nat) : (combosList (k + 1)).getLast? = some (1, k) := by
  unfold combosList
  rw [show List.range 2 = [0, 1] from rfl]
  rw [show ([0, 1].flatMap fun mi => (List.range (k + 1)).map fun ki => (mi, ki)) =
      ((List.range (k + 1)).map fun ki => ((0 : Nat), ki)) ++
        ((List.range (k + 1)).map fun ki => ((1 : Nat), ki)) by
    simp [List.flatMap_cons, List.flatMap_nil]]
  rw [List.getLast?_append]
  simp [List.range_succ]

theorem runCombos_allfail (oracle : Nat → Nat → Nat → FetchResult) (E : Nat × Nat → CallError) :
    ∀ (L : List (Nat × Nat)) (st : DState), st.success = false →
      (∀ c ∈ L, (callGeminiWithRetry (oracle c.1 c.2) 1).result = .error (E c)) →
      runCombos oracle L st =
        ⟨st.response, lastNon429 E st.lastError L, false,
          st.hit429 || L.any fun c => inc429 (E c), st.attempts ++ L⟩ := by
  intro L
  induction L with
  | nil =>
    intro st hs _
    cases st with
    | mk rsp le sc h4 att =>
      simp only at hs
      subst hs
      simp [runCombos, lastNon429]
  | cons c rest ih =>
    intro st hs hall
    have hc := hall c (List.mem_cons_self c rest)
    have hrest : ∀ d ∈ rest, (callGeminiWithRetry (oracle d.1 d.2) 1).result = .error (E d) :=
      fun d hd => hall d (List.mem_cons_of_mem c hd)
    show runCombos oracle rest (tryKey oracle c.1 c.2 st) = _
    cases h4 : inc429 (E c) with
    | true =>
      have hstep : tryKey oracle c.1 c.2 st =
          { st with hit429 := true, attempts := st.attempts ++ [c] } := by
        unfold tryKey
        rw [hc]
        simp [hs, h4]
      rw [hstep, ih _ (by simp [hs]) hrest]
      simp [lastNon429, h4, List.append_assoc]
    | false =>
      have hstep : tryKey oracle c.1 c.2 st =
          { st with lastError := some (E c), attempts := st.attempts ++ [c] } := by
        unfold tryKey
        rw [hc]
        simp [hs, h4]
      rw [hstep, ih _ (by simp [hs]) hrest]
      simp [lastNon429, h4, List.append_assoc]

theorem lastNon429_all (E : Nat × Nat → CallError) :
    ∀ (L : List (Nat × Nat)) (acc : Option CallError), (∀ c ∈ L, inc429 (E c) = false) →
      lastNon429 E acc L =
        (match L.getLast? with | some c => some (E c) | none => acc) := by
  intro L
  induction L with
  | nil => intro acc _; rfl
  | cons c rest ih =>
    intro acc hall
    have h4 := hall c (List.mem_cons_self c rest)
    rw [show lastNon429 E acc (c :: rest) =
        (if inc429 (E c) then lastNon429 E acc rest else lastNon429 E (some (E c)) rest) from rfl]
    rw [h4]
    simp only [Bool.false_eq_true, if_false]
    rw [ih (some (E c)) (fun d hd => hall d (List.mem_cons_of_mem c hd))]
    cases rest with
    | nil => rfl
    | cons r rs =>
      rw [List.getLast?_cons_cons]
      cases hgl : (r :: rs).getLast? with
      | some d => rfl
      | none =>
        exact absurd hgl (by simp)

/-! ### C3 (amended): final classification when every combination fails -/

/-- C3 (amended): suppose every (model, credential) combination fails, with
`E mi ki` the error thrown for model `mi` and credential `ki`.  (A) If some
combination's first attempt answered HTTP 429, the dispatcher's final result
is `RateLimitExceeded`, and the outer catch turns its thrown
`RATE_LIMIT_EXCEEDED` message into the localized rate-limit text for the
request's language.  (B) If no failure's error text contains the substring
`'429'`, the final result is `AllAttemptsFailed` wrapping the error of the
last combination (model 1, credential `nkeys - 1`). -/
theorem dispatch_allfail_classification (oracle : Nat → Nat → Nat → FetchResult)
    (nkeys : Nat) (E : Nat → Nat → CallError) (lang : String)
    (hn : 1 ≤ nkeys)
    (hE : ∀ mi ki, mi < 2 → ki < nkeys →
      (callGeminiWithRetry (oracle mi ki) 1).result = .error (E mi ki)) :
    ((∃ mi ki t p, mi < 2 ∧ ki < nkeys ∧ oracle mi ki 0 = .http 429 t p) →
      finalDispatchResult (dispatchLoop oracle nkeys) = .error .rateLimitExceeded ∧
        classifyUserMessage lang (dispatchErrMsg .rateLimitExceeded) = rateLimitText lang) ∧
      ((∀ mi ki, mi < 2 → ki < nkeys → inc429 (E mi ki) = false) →
        finalDispatchResult (dispatchLoop oracle nkeys) =
          .error (.allAttemptsFailed (some (E 1 (nkeys - 1))))) := by
  have hallL : ∀ c ∈ combosList nkeys,
      (callGeminiWithRetry (oracle c.1 c.2) 1).result = .error (E c.1 c.2) := by
    intro c hcm
    have hb := combos_bounds nkeys c hcm
    exact hE c.1 c.2 hb.1 hb.2
  have hrun := runCombos_allfail oracle (fun c => E c.1 c.2) (combosList nkeys) initDState rfl hallL
  constructor
  · rintro ⟨mi, ki, t, p, hmi, hki, h429⟩
    have h1 : (callGeminiWithRetry (oracle mi ki) 1).result = .error .rateLimit429 := by
      rw [call429_one (oracle mi ki) t p h429]
    have hEeq : E mi ki = .rateLimit429 := by
      have h2 := hE mi ki hmi hki
      rw [h1] at h2
      exact (Except.error.inj h2).symm
    have hany : ((combosList nkeys).any fun c => inc429 (E c.1 c.2)) = true := by
      refine List.any_eq_true.mpr ⟨(mi, ki), mem_combos nkeys mi ki hmi hki, ?_⟩
      simp [hEeq, inc429, inc429_rl]
    constructor
    · unfold dispatchLoop
      rw [hrun]
      simp [finalDispatchResult, dispatchFailure, initDState, hany]
    · simp [dispatchErrMsg, classifyUserMessage,
        show strIncludes "Error: RATE_LIMIT_EXCEEDED" "RATE_LIMIT_EXCEEDED" = true from by decide]
  · intro hno
    have hanyf : ((combosList nkeys).any fun c => inc429 (E c.1 c.2)) = false := by
      refine List.any_eq_false.mpr ?_
      intro c hcm
      have hb := combos_bounds nkeys c hcm
      simp [hno c.1 c.2 hb.1 hb.2]
    have hlast : lastNon429 (fun c => E c.1 c.2) none (combosList nkeys) =
        some (E 1 (nkeys - 1)) := by
      rw [lastNon429_all (fun c => E c.1 c.2) (combosList nkeys) none
        (fun c hcm => by
          have hb := combos_bounds nkeys c hcm
          exact hno c.1 c.2 hb.1 hb.2)]
      obtain ⟨k, rfl⟩ : ∃ k, nkeys = k + 1 := ⟨nkeys - 1, by omega⟩
      rw [combos_getLast k]
      simp
    unfold dispatchLoop
    rw [hrun]
    simp [finalDispatchResult, dispatchFailure, initDState, hanyf, hlast]

/-- C3 witness: every attempt of every combination answers HTTP 429 (one
configured key), giving the RateLimitExceeded dispatch failure with the
English rate-limit text. -/
theorem dispatch_allfail_classification_witness :
    finalDispatchResult (dispatchLoop oracleAll429 1) = .error .rateLimitExceeded ∧
      classifyUserMessage "en" (dispatchErrMsg .rateLimitExceeded) = rateLimitText "en" :=
  (dispatch_allfail_classification oracleAll429 1 (fun _ _ => .rateLimit429) "en"
    (by decide)
    (fun mi ki _ _ => by rw [call429_one (oracleAll429 mi ki) "quota" (.error "x") rfl])).1
    ⟨0, 0, "quota", .error "x", by decide, by decide, rfl⟩

set_option maxRecDepth 8192 in
/-- C3 counterexample to the claim's second half as stated: every
combination fails with HTTP 500 — no failure is quota-exceeded — yet
because the 500 response body happens to contain the substring "429" the
dispatcher reports `RateLimitExceeded`, not `AllAttemptsFailed`. -/
theorem dispatch_body429_misclassified :
    (∀ mi ki i s t p, oracleBody429 mi ki i = .http s t p → s = 500) ∧
      finalDispatchResult (dispatchLoop oracleBody429 1) = .error .rateLimitExceeded := by
  constructor
  · intro mi ki i s t p h
    cases h
    rfl
  · rfl

/-! ### C9 (amended): answer extraction from a 200 payload -/

/-- C9 (amended): (1)–(3) a missing `candidates` array, an empty one, and a
first candidate without `content` each produce the explicit NoCandidateError
branch; (4) when `content` is present but the first text part is missing
(absent `parts`, empty `parts`, or a first part without `text`) the access
chain throws instead, which is still a failure — never a success — though
it surfaces as a generic error rather than NoCandidateError; (5) a success
value is produced exactly when the full structure is present, and then the
answer equals `candidates[0].content.parts[0].text`. -/
theorem answer_extraction_spec :
    (∀ r : GeminiResult, r.candidates = none → answerFromResult r = .noCandidate) ∧
      (∀ (r : GeminiResult) (cs : List GemCandidate),
        r.candidates = some cs → cs.head? = none → answerFromResult r = .noCandidate) ∧
      (∀ (r : GeminiResult) (cs : List GemCandidate) (c0 : GemCandidate),
        r.candidates = some cs → cs.head? = some c0 → c0.content = none →
        answerFromResult r = .noCandidate) ∧
      (∀ (r : GeminiResult) (cs : List GemCandidate) (c0 : GemCandidate) (ct : GemContent),
        r.candidates = some cs → cs.head? = some c0 → c0.content = some ct →
        (¬ ∃ ps p0 t, ct.parts = some ps ∧ ps.head? = some p0 ∧ p0.text = some t) →
        (∃ m, answerFromResult r = .thrown m) ∧ ∀ t, answerFromResult r ≠ .success t) ∧
      (∀ (r : GeminiResult) (t : String), answerFromResult r = .success t →
        ∃ cs c0 ct ps p0, r.candidates = some cs ∧ cs.head? = some c0 ∧
          c0.content = some ct ∧ ct.parts = some ps ∧ ps.head? = some p0 ∧
          p0.text = some t) := by
  refine ⟨?_, ?_, ?_, ?_, ?_⟩
  · intro r h
    simp [answerFromResult, h]
  · intro r cs h hh
    simp [answerFromResult, h, hh]
  · intro r cs c0 h hh hc
    simp [answerFromResult, h, hh, hc]
  · intro r cs c0 ct h hh hc hmiss
    cases hps : ct.parts with
    | none =>
      have hred : answerFromResult r = .thrown typeErrorIdxMsg := by
        simp [answerFromResult, h, hh, hc, hps]
      exact ⟨⟨typeErrorIdxMsg, hred⟩,
        fun t h' => AnswerOutcome.noConfusion (hred ▸ h')⟩
    | some ps =>
      cases hp0 : ps.head? with
      | none =>
        have hred : answerFromResult r = .thrown typeErrorTextMsg := by
          simp [answerFromResult, h, hh, hc, hps, hp0]
        exact ⟨⟨typeErrorTextMsg, hred⟩,
          fun t h' => AnswerOutcome.noConfusion (hred ▸ h')⟩
      | some p0 =>
        cases ht : p0.text with
        | none =>
          have hred : answerFromResult r = .thrown typeErrorLenMsg := by
            simp [answerFromResult, h, hh, hc, hps, hp0, ht]
          exact ⟨⟨typeErrorLenMsg, hred⟩,
            fun t h' => AnswerOutcome.noConfusion (hred ▸ h')⟩
        | some t => exact absurd ⟨ps, p0, t, hps, hp0, ht⟩ hmiss
  · intro r t h
    cases hcand : r.candidates with
    | none =>
      rw [show answerFromResult r = .noCandidate by simp [answerFromResult, hcand]] at h
      exact AnswerOutcome.noConfusion h
    | some cs =>
      cases hh : cs.head? with
      | none =>
        rw [show answerFromResult r = .noCandidate by simp [answerFromResult, hcand, hh]] at h
        exact AnswerOutcome.noConfusion h
      | some c0 =>
        cases hc : c0.content with
        | none =>
          rw [show answerFromResult r = .noCandidate by
            simp [answerFromResult, hcand, hh, hc]] at h
          exact AnswerOutcome.noConfusion h
        | some ct =>
          cases hps : ct.parts with
          | none =>
            rw [show answerFromResult r = .thrown typeErrorIdxMsg by
              simp [answerFromResult, hcand, hh, hc, hps]] at h
            exact AnswerOutcome.noConfusion h
          | some ps =>
            cases hp0 : ps.head? with
            | none =>
              rw [show answerFromResult r = .thrown typeErrorTextMsg by
                simp [answerFromResult, hcand, hh, hc, hps, hp0]] at h
              exact AnswerOutcome.noConfusion h
            | some p0 =>
              cases ht : p0.text with
              | none =>
                rw [show answerFromResult r = .thrown typeErrorLenMsg by
                  simp [answerFromResult, hcand, hh, hc, hps, hp0, ht]] at h
                exact AnswerOutcome.noConfusion h
              | some t0 =>
                rw [show answerFromResult r = .success t0 by
                  simp [answerFromResult, hcand, hh, hc, hps, hp0, ht]] at h
                injection h with ht2
                subst ht2
                exact ⟨cs, c0, ct, ps, p0, rfl, hh, hc, hps, hp0, ht⟩

/-- C9 witness: a first candidate without `content` hits the
NoCandidateError branch. -/
theorem answer_extraction_spec_witness :
    answerFromResult ⟨some [⟨none⟩]⟩ = .noCandidate :=
  answer_extraction_spec.2.2.1 ⟨some [⟨none⟩]⟩ [⟨none⟩] ⟨none⟩ rfl rfl rfl

/-- C9 counterexample to the claim as stated: a payload whose first
candidate has `content` with an empty `parts` array does NOT produce the
NoCandidateError response — the unguarded `parts[0].text` access throws a
TypeError instead (which the outer catch turns into the generic error
message). -/
theorem answer_missing_parts_not_noCandidate :
    answerFromResult gBadParts = .thrown typeErrorTextMsg ∧
      answerFromResult gBadParts ≠ .noCandidate := by
  exact ⟨rfl, by decide⟩

/-! ### Cache and key-shape lemmas -/

theorem hourKey_data (fp : String) :
    (hourKeyOf fp).data =
      'r' :: 'a' :: 't' :: 'e' :: '_' :: 'h' :: 'o' :: 'u' :: 'r' :: '_' :: fp.data := rfl

theorem dayKey_data (fp : String) :
    (dayKeyOf fp).data =
      'r' :: 'a' :: 't' :: 'e' :: '_' :: 'd' :: 'a' :: 'y' :: '_' :: fp.data := rfl

theorem hour_ne_day (a b : String) : hourKeyOf a ≠ dayKeyOf b := by
  intro h
  have h5 : (hourKeyOf a).data.get? 5 = some 'h' := rfl
  have h6 : (dayKeyOf b).data.get? 5 = some 'd' := rfl
  rw [h, h6] at h5
  injection h5 with hch
  exact absurd hch (by decide)

theorem getCache_put_eq (st : CacheState) (now t : Nat) (k : String) (v : CacheVal) (ttl : Nat) :
    getCache (putCache st now k v ttl) t k = if t < now + ttl then some v else none := by
  cases v with
  | mk c ts =>
    unfold getCache putCache
    rw [List.find?_cons_of_pos _ (by simp)]

theorem getCache_put_ne (st : CacheState) (now t : Nat) (k k' : String) (v : CacheVal)
    (ttl : Nat) (h : k ≠ k') :
    getCache (putCache st now k v ttl) t k' = getCache st t k' := by
  unfold getCache putCache
  rw [List.find?_cons_of_neg _ (by simp [h])]

/-! ### C6: bypass rules allow unconditionally, before any counting -/

/-- C6: (1) a request whose supplied `userIP` is in the whitelist is allowed
with the cache untouched, whatever the counters hold; (2) with
loopback-bypass enabled, a request whose referrer contains `localhost` or
`127.0.0.1` is likewise allowed with the cache untouched. -/
theorem checkRateLimit_bypass (cfg : RLConfig) (digest : String → String) (e : PostEvent)
    (cache : CacheState) (now : Nat) :
    (cfg.whitelist.contains (effUserIP e) = true →
      checkRateLimit cfg digest e cache now = (⟨true, none⟩, cache)) ∧
      (cfg.allowLocalhost = true →
        (strIncludes (effReferrer e) "localhost" = true ∨
          strIncludes (effReferrer e) "127.0.0.1" = true) →
        checkRateLimit cfg digest e cache now = (⟨true, none⟩, cache)) := by
  constructor
  · intro h
    simp only [checkRateLimit]
    rw [if_pos h]
  · intro hl hr
    cases hw : cfg.whitelist.contains (effUserIP e) with
    | true =>
      simp only [checkRateLimit]
      rw [if_pos hw]
    | false =>
      simp only [checkRateLimit]
      rw [if_neg (by simpa using hw), if_pos (show (cfg.allowLocalhost &&
        (strIncludes (effReferrer e) "localhost" ||
          strIncludes (effReferrer e) "127.0.0.1")) = true by
        rcases hr with hr | hr <;> simp [hl, hr])]

/-- C6 witness: the whitelisted IP `172.16.255.61` is allowed even though
the caller's hourly counter already sits at the maximum, and so is a
localhost referrer under the same saturated cache. -/
theorem checkRateLimit_bypass_witness :
    checkRateLimit defaultRLConfig digestC eWL cacheMax 0 = (⟨true, none⟩, cacheMax) ∧
      checkRateLimit defaultRLConfig digestC eLocal cacheMax 0 = (⟨true, none⟩, cacheMax) :=
  ⟨(checkRateLimit_bypass defaultRLConfig digestC eWL cacheMax 0).1 (by decide),
    (checkRateLimit_bypass defaultRLConfig digestC eLocal cacheMax 0).2 rfl (.inl (by decide))⟩

/-! ### C5: the counting path -/

/-- C5: for a non-bypassed request, the hourly counter is checked first:
at or above the hourly maximum the request is denied with the localized
message naming that maximum and the cache is untouched; otherwise at or
above the daily maximum it is denied with the localized daily message;
otherwise both counters are written back incremented (set to 1 when absent
or expired) with their window TTLs — readable for the window length, gone
at its end — and the request is allowed. -/
theorem checkRateLimit_counters (cfg : RLConfig) (digest : String → String) (e : PostEvent)
    (cache : CacheState) (now : Nat)
    (hwl : cfg.whitelist.contains (effUserIP e) = false)
    (hlh : (cfg.allowLocalhost &&
      (strIncludes (effReferrer e) "localhost" ||
        strIncludes (effReferrer e) "127.0.0.1")) = false) :
    (cfg.maxPerHour ≤ countOf cache now (hourKeyOf (fingerprintOf digest e)) →
      checkRateLimit cfg digest e cache now =
        (⟨false, some (hourLimitMsg (effLanguage e) cfg.maxPerHour)⟩, cache)) ∧
      (countOf cache now (hourKeyOf (fingerprintOf digest e)) < cfg.maxPerHour →
        cfg.maxPerDay ≤ countOf cache now (dayKeyOf (fingerprintOf digest e)) →
        checkRateLimit cfg digest e cache now =
          (⟨false, some (dayLimitMsg (effLanguage e) cfg.maxPerDay)⟩, cache)) ∧
      (countOf cache now (hourKeyOf (fingerprintOf digest e)) < cfg.maxPerHour →
        countOf cache now (dayKeyOf (fingerprintOf digest e)) < cfg.maxPerDay →
        (checkRateLimit cfg digest e cache now).1 = ⟨true, none⟩ ∧
          (∀ t, t < now + 3600 →
            getCache (checkRateLimit cfg digest e cache now).2 t
              (hourKeyOf (fingerprintOf digest e)) =
              some ⟨countOf cache now (hourKeyOf (fingerprintOf digest e)) + 1, now⟩) ∧
          (∀ t, now + 3600 ≤ t →
            getCache (checkRateLimit cfg digest e cache now).2 t
              (hourKeyOf (fingerprintOf digest e)) = none) ∧
          (∀ t, t < now + 86400 →
            getCache (checkRateLimit cfg digest e cache now).2 t
              (dayKeyOf (fingerprintOf digest e)) =
              some ⟨countOf cache now (dayKeyOf (fingerprintOf digest e)) + 1, now⟩) ∧
          (∀ t, now + 86400 ≤ t →
            getCache (checkRateLimit cfg digest e cache now).2 t
              (dayKeyOf (fingerprintOf digest e)) = none)) := by
  have hw' : ¬(cfg.whitelist.contains (effUserIP e) = true) := by simpa using hwl
  have hl' : ¬((cfg.allowLocalhost &&
      (strIncludes (effReferrer e) "localhost" ||
        strIncludes (effReferrer e) "127.0.0.1")) = true) := by simp [hlh]
  refine ⟨?_, ?_, ?_⟩
  · intro hh
    simp only [checkRateLimit]
    rw [if_neg hw', if_neg hl', if_pos hh]
  · intro hh hd
    simp only [checkRateLimit]
    rw [if_neg hw', if_neg hl', if_neg (Nat.not_le.mpr hh), if_pos hd]
  · intro hh hd
    have hstate : (checkRateLimit cfg digest e cache now).2 =
        putCache
          (putCache cache now (hourKeyOf (fingerprintOf digest e))
            ⟨countOf cache now (hourKeyOf (fingerprintOf digest e)) + 1, now⟩ 3600)
          now (dayKeyOf (fingerprintOf digest e))
          ⟨countOf cache now (dayKeyOf (fingerprintOf digest e)) + 1, now⟩ 86400 := by
      simp only [checkRateLimit]
      rw [if_neg hw', if_neg hl', if_neg (Nat.not_le.mpr hh), if_neg (Nat.not_le.mpr hd)]
    refine ⟨?_, ?_, ?_, ?_, ?_⟩
    case refine_1 =>
      simp only [checkRateLimit]
      rw [if_neg hw', if_neg hl', if_neg (Nat.not_le.mpr hh), if_neg (Nat.not_le.mpr hd)]
    · intro t ht
      rw [hstate,
        getCache_put_ne _ _ _ _ _ _ _ (fun hne => hour_ne_day _ _ hne.symm),
        getCache_put_eq]
      simp [ht]
    · intro t ht
      rw [hstate,
        getCache_put_ne _ _ _ _ _ _ _ (fun hne => hour_ne_day _ _ hne.symm),
        getCache_put_eq]
      simp [Nat.not_lt.mpr ht]
    · intro t ht
      rw [hstate, getCache_put_eq]
      simp [ht]
    · intro t ht
      rw [hstate, getCache_put_eq]
      simp [Nat.not_lt.mpr ht]

/-- C5 witness: an anonymous caller with empty counters is allowed and both
windows then read count 1; at the window boundaries the entries are gone. -/
theorem checkRateLimit_counters_witness :
    (checkRateLimit defaultRLConfig digestC eAnon [] 0).1 = ⟨true, none⟩ ∧
      getCache (checkRateLimit defaultRLConfig digestC eAnon [] 0).2 10
        (hourKeyOf (fingerprintOf digestC eAnon)) = some ⟨1, 0⟩ ∧
      getCache (checkRateLimit defaultRLConfig digestC eAnon [] 0).2 3600
        (hourKeyOf (fingerprintOf digestC eAnon)) = none := by
  have h := (checkRateLimit_counters defaultRLConfig digestC eAnon [] 0
    (by decide) (by decide)).2.2 (by decide) (by decide)
  exact ⟨h.1, h.2.1 10 (by decide), h.2.2.1 3600 (by decide)⟩

/-! ### C7: the stored counters never exceed their window maxima -/

theorem checkRateLimit_state_cases (cfg : RLConfig) (digest : String → String) (e : PostEvent)
    (st : CacheState) (now : Nat) :
    (checkRateLimit cfg digest e st now).2 = st ∨
      ∃ fp hc dc, hc < cfg.maxPerHour ∧ dc < cfg.maxPerDay ∧
        (checkRateLimit cfg digest e st now).2 =
          putCache (putCache st now (hourKeyOf fp) ⟨hc + 1, now⟩ 3600)
            now (dayKeyOf fp) ⟨dc + 1, now⟩ 86400 := by
  by_cases hw : cfg.whitelist.contains (effUserIP e) = true
  · left
    simp only [checkRateLimit]
    rw [if_pos hw]
  · by_cases hl : (cfg.allowLocalhost &&
        (strIncludes (effReferrer e) "localhost" ||
          strIncludes (effReferrer e) "127.0.0.1")) = true
    · left
      simp only [checkRateLimit]
      rw [if_neg hw, if_pos hl]
    · by_cases hh : cfg.maxPerHour ≤ countOf st now (hourKeyOf (fingerprintOf digest e))
      · left
        simp only [checkRateLimit]
        rw [if_neg hw, if_neg hl, if_pos hh]
      · by_cases hd : cfg.maxPerDay ≤ countOf st now (dayKeyOf (fingerprintOf digest e))
        · left
          simp only [checkRateLimit]
          rw [if_neg hw, if_neg hl, if_neg hh, if_pos hd]
        · right
          refine ⟨fingerprintOf digest e, countOf st now (hourKeyOf (fingerprintOf digest e)),
            countOf st now (dayKeyOf (fingerprintOf digest e)),
            Nat.not_le.mp hh, Nat.not_le.mp hd, ?_⟩
          simp only [checkRateLimit]
          rw [if_neg hw, if_neg hl, if_neg hh, if_neg hd]

theorem checkRateLimit_preserves_inv (cfg : RLConfig) (digest : String → String) (e : PostEvent)
    (st : CacheState) (now : Nat) (h : cacheCounterInv cfg st) :
    cacheCounterInv cfg (checkRateLimit cfg digest e st now).2 := by
  rcases checkRateLimit_state_cases cfg digest e st now with heq | ⟨fp, hc, dc, hhc, hdc, heq⟩
  · rw [heq]; exact h
  · rw [heq]
    intro en hen
    rcases List.mem_cons.mp hen with rfl | hen2
    · constructor
      · rintro ⟨fp2, hk⟩
        exact absurd hk.symm (hour_ne_day fp2 fp)
      · intro _
        dsimp only
        omega
    · rcases List.mem_cons.mp hen2 with rfl | hen3
      · constructor
        · intro _
          dsimp only
          omega
        · rintro ⟨fp2, hk⟩
          exact absurd hk (hour_ne_day fp fp2)
      · exact h en hen3

theorem runRL_preserves (cfg : RLConfig) (digest : String → String) :
    ∀ (ops : List (PostEvent × Nat)) (st : CacheState),
      cacheCounterInv cfg st → cacheCounterInv cfg (runRL cfg digest ops st) := by
  intro ops
  induction ops with
  | nil => intro st h; exact h
  | cons op rest ih =>
    intro st h
    cases op with
    | mk e now =>
      exact ih (checkRateLimit cfg digest e st now).2
        (checkRateLimit_preserves_inv cfg digest e st now h)

/-- C7: starting from an empty counter store, after any sequence of
`checkRateLimit` operations every stored hourly counter is at most the
hourly maximum and every stored daily counter at most the daily maximum
(the sequential embedding has no concurrent interleavings, so the +1 race
margin never materialises: increments happen only strictly below the
maximum). -/
theorem rlCounterBounds (cfg : RLConfig) (digest : String → String)
    (ops : List (PostEvent × Nat)) :
    cacheCounterInv cfg (runRL cfg digest ops []) :=
  runRL_preserves cfg digest ops [] (fun en hen => absurd hen (List.not_mem_nil en))

/-- C7 witness: a concrete two-request run keeps the invariant, and its
resulting hourly entry indeed carries count 2 ≤ 20. -/
theorem rlCounterBounds_witness :
    cacheCounterInv defaultRLConfig
      (runRL defaultRLConfig digestC [(eAnon, 0), (eAnon, 1)] []) ∧
      getCache (runRL defaultRLConfig digestC [(eAnon, 0), (eAnon, 1)] []) 2
        (hourKeyOf (fingerprintOf digestC eAnon)) = some ⟨2, 1⟩ :=
  ⟨rlCounterBounds defaultRLConfig digestC [(eAnon, 0), (eAnon, 1)], by rfl⟩

/-! ### C10: the fingerprint depends only on userId/deviceId and userAgent -/

/-- C10: (1) the fingerprint and both counter keys are functions of the
effective user id (`userId || deviceId || 'anonymous'`) and the user agent
alone — two requests agreeing on those agree on fingerprint and keys no
matter what else they carry; (2) a request supplying none of
userId/deviceId/userAgent (absent or empty) gets user id `anonymous` and
empty user agent, so all such callers share one quota. -/
theorem fingerprint_depends_only_on_id_agent :
    (∀ (digest : String → String) (e1 e2 : PostEvent),
      effUserId e1 = effUserId e2 → effUserAgent e1 = effUserAgent e2 →
      fingerprintOf digest e1 = fingerprintOf digest e2 ∧
        hourKeyOf (fingerprintOf digest e1) = hourKeyOf (fingerprintOf digest e2) ∧
        dayKeyOf (fingerprintOf digest e1) = dayKeyOf (fingerprintOf digest e2)) ∧
      (∀ e : PostEvent,
        ((e.parameter.bind fun p => p.userId) = none ∨
          (e.parameter.bind fun p => p.userId) = some "") →
        ((e.parameter.bind fun p => p.deviceId) = none ∨
          (e.parameter.bind fun p => p.deviceId) = some "") →
        ((e.parameter.bind fun p => p.userAgent) = none ∨
          (e.parameter.bind fun p => p.userAgent) = some "") →
        effUserId e = "anonymous" ∧ effUserAgent e = "") := by
  constructor
  · intro digest e1 e2 hid hag
    unfold fingerprintOf
    rw [hid, hag]
    exact ⟨rfl, rfl, rfl⟩
  · intro e hu hd ha
    constructor
    · unfold effUserId
      rcases hu with hu | hu <;> rcases hd with hd | hd <;> simp [hu, hd, jsOrS]
    · unfold effUserAgent
      rcases ha with ha | ha <;> simp [ha, jsOrS]

/-- C10 witness: a bare JSON-body request and a form request with question
and referrer but no identity parameters produce the same fingerprint and
counter keys. -/
theorem fingerprint_depends_only_on_id_agent_witness :
    fingerprintOf digestC eAnon = fingerprintOf digestC eJsonC10 ∧
      hourKeyOf (fingerprintOf digestC eAnon) = hourKeyOf (fingerprintOf digestC eJsonC10) ∧
      dayKeyOf (fingerprintOf digestC eAnon) = dayKeyOf (fingerprintOf digestC eJsonC10) :=
  fingerprint_depends_only_on_id_agent.1 digestC eAnon eJsonC10 rfl rfl

/-! ### C8 (amended): empty questions are rejected before dispatch -/

/-- C8 (amended): for any request the parser rejects with
`EmptyQuestionError` (form question blank, or JSON body whose question is
absent or trims to empty) which the rate limiter lets through, `doPost`
answers the "Question is required and cannot be empty" failure, and the
result does not depend on the fetch oracle or the key list — no dispatch
to the generation service occurs. -/
theorem emptyQuestion_no_dispatch (cfg : RLConfig) (env : Env) (e : PostEvent)
    (cache : CacheState) (now : Nat)
    (hq : parseRequest e = .error .emptyQuestion)
    (ha : (checkRateLimit cfg env.digest e cache now).1.allowed = true) :
    (doPost cfg true env e cache now).1 =
      ⟨false, none, some "Question is required and cannot be empty"⟩ ∧
      ∀ (oracle2 : Nat → Nat → Nat → FetchResult) (keys2 : List String),
        (doPost cfg true ⟨keys2, oracle2, env.digest⟩ e cache now).1 =
          (doPost cfg true env e cache now).1 := by
  have main : ∀ (ks : List String) (orc : Nat → Nat → Nat → FetchResult),
      (doPost cfg true ⟨ks, orc, env.digest⟩ e cache now).1 =
        ⟨false, none, some "Question is required and cannot be empty"⟩ := by
    intro ks orc
    simp only [doPost]
    rw [if_neg (by simp [ha]), hq]
  refine ⟨main env.keys env.oracle, fun o2 k2 => ?_⟩
  rw [main k2 o2, main env.keys env.oracle]

/-- C8 witness: a JSON body whose question is whitespace only. -/
theorem emptyQuestion_no_dispatch_witness :
    (doPost defaultRLConfig true env0 eEmptyQ [] 0).1 =
      ⟨false, none, some "Question is required and cannot be empty"⟩ :=
  (emptyQuestion_no_dispatch defaultRLConfig env0 eEmptyQ [] 0 (by rfl) (by rfl)).1

set_option maxRecDepth 8192 in
/-- C8 counterexample to the claim as stated: a form-style request whose
question field is absent and which carries no post body is rejected with
the NoDataError response, not the EmptyQuestionError one. -/
theorem noData_not_emptyQuestion :
    (doPost defaultRLConfig true env0 eNoData [] 0).1 =
      ⟨false, none, some "No data received. postData: null, parameter: exists"⟩ ∧
      ¬((doPost defaultRLConfig true env0 eNoData [] 0).1 =
        ⟨false, none, some "Question is required and cannot be empty"⟩) := by
  refine ⟨rfl, ?_⟩
  intro h
  rw [show (doPost defaultRLConfig true env0 eNoData [] 0).1 =
    ⟨false, none, some "No data received. postData: null, parameter: exists"⟩ from rfl] at h
  have h2 := congrArg ApiResponse.error h
  simp at h2
